import Mathlib

/-!
Verification of the dashboardiot repository's core logic against its
natural-language specification.

The development shallowly embeds the repository's TypeScript into Lean:

* `alertsRules` / `alertsRulesV1` — the two variants of the alert evaluator
  in `src/app/AlertsRules.tsx` (the `useMemo` body computing the alert list).
  The second variant (lines 267-351), which adds the staleness arm and the
  severity sort, is the one the spec's §4.3 describes; it is modelled as
  `alertsRules`.  JavaScript truthiness of `number | null` values (`!ts`,
  `ts && now`) is modelled exactly: `0` and `null` are falsy.
* `statsOf` — the statistics block of `src/app/TrendInsights.tsx`
  (min/max/mean, ideal percentage, trend), including the exact semantics of
  `Array.prototype.slice` with negative arguments (`jsSlice`).
* `mergeHistory` — the per-timestamp merge of the two metric series in
  `src/app/api/tb/history/route.ts`, with the JS `Map` modelled as an
  insertion-ordered association list.
* `latestReshape`, `latestRoute`, `historyRoute` — the two GET proxy
  endpoints (`/api/tb/latest` in `page.tsx` lines 585-661 and
  `/api/tb/history`), with the upstream platform abstracted as an oracle and
  the number of upstream requests made returned alongside the response.

Numbers are idealised as `ℚ` (the source computes in IEEE doubles; every
comparison the claims mention is far from any rounding boundary), timestamps
as `ℤ`.  String-to-number parsing (`Number(...)`/`parseFloat`) is kept
abstract as a function parameter, so no parsing behaviour is assumed.
Display-only strings built with `toFixed`/template interpolation
(the `valueText` field of an alert) are presentation formatting and are not
modelled; no claim refers to them.

JavaScript's `Array.prototype.sort` with a comparator is a *stable* sort
whose output is ordered by the comparator; any stable sort ordered by the
same total preorder produces the identical list, so it is modelled by the
computable stable insertion sort `jsSort`.
-/

namespace Dashboard

/-- Connectivity status, `type Status` in `AlertsRules.tsx`. -/
inductive Status
  | ONLINE
  | OFFLINE
  | UNKNOWN
deriving DecidableEq

/-- Alert severity, `type Severity` in `AlertsRules.tsx`. -/
inductive Severity
  | INFO
  | WARN
  | CRIT
deriving DecidableEq

/-- An alert, `type Alert` in `AlertsRules.tsx`.  The display-only
`valueText` field (a `toFixed`-formatted string) is not modelled. -/
structure Alert where
  id : String
  title : String
  severity : Severity
  ts : ℤ
  suggestion : String
deriving DecidableEq

/-- Model of `severityRank` from `AlertsRules.tsx` (second variant, lines 234-236):
CRIT ↦ 0, WARN ↦ 1, anything else ↦ 2. -/
def severityRank : Severity → ℕ
  | Severity.CRIT => 0
  | Severity.WARN => 1
  | _ => 2

/-- JavaScript truthiness of a `number | null` value: `null` and `0` are
falsy (`NaN`, the other falsy number, cannot arise for these integer
timestamps). -/
def jsTruthy : Option ℤ → Bool
  | none => false
  | some t => t != 0

/-- The sort comparator of the second `AlertsRules` variant (lines 346-350),
`severityRank a - severityRank b`, ties by `b.ts - a.ts`, turned into the
"a may come before b" relation `comparator a b ≤ 0`. -/
def alertLe (a b : Alert) : Bool :=
  decide (severityRank a.severity < severityRank b.severity) ||
    (decide (severityRank a.severity = severityRank b.severity) && decide (b.ts ≤ a.ts))

/-- Stable ordered insert: `x` is placed after every element `y` of the
(already sorted) list with `le y x`. -/
def jsSortInsert (le : α → α → Bool) (x : α) : List α → List α
  | [] => [x]
  | y :: ys => if le y x then y :: jsSortInsert le x ys else x :: y :: ys

/-- Model of `Array.prototype.sort(cmp)`: a stable sort whose output is
ordered by the comparator.  Stable insertion sort, processing the array left
to right. -/
def jsSort (le : α → α → Bool) (l : List α) : List α :=
  l.foldl (fun acc x => jsSortInsert le x acc) []

/-- The staleness flag of the second `AlertsRules` variant (lines 276-277):
`ts && now ? safeNow - ts > 2 * 60 * 1000 : false`. -/
def staleFlag (ts now : Option ℤ) : Bool :=
  if jsTruthy ts && jsTruthy now then
    decide (2 * 60 * 1000 < now.getD (ts.getD 0) - ts.getD 0)
  else false

/-- The connectivity guard of the second `AlertsRules` variant (line 280):
`!ts || status === "OFFLINE" || stale`. -/
def gatewayFires (status : Status) (ts now : Option ℤ) : Bool :=
  !jsTruthy ts || status == Status.OFFLINE || staleFlag ts now

/-- The "temp-high" alert pushed by the second `AlertsRules` variant
(lines 298-307); the literal is inlined in the source. -/
def tempHighAlert (t : ℚ) (safeTs : ℤ) : Alert :=
  { id := "temp-high"
    title := "Suhu Terlalu Tinggi"
    severity := if 30 < t then Severity.CRIT else Severity.WARN
    ts := safeTs
    suggestion := "Nyalakan fan / cek ventilasi kumbung." }

/-- The "temp-low" alert of the second `AlertsRules` variant (lines 310-319). -/
def tempLowAlert (t : ℚ) (safeTs : ℤ) : Alert :=
  { id := "temp-low"
    title := "Suhu Terlalu Rendah"
    severity := if t < 20 then Severity.CRIT else Severity.WARN
    ts := safeTs
    suggestion := "Kurangi airflow / gunakan pemanas bila ada." }

/-- The "rh-high" alert of the second `AlertsRules` variant (lines 322-331). -/
def rhHighAlert (h : ℚ) (safeTs : ℤ) : Alert :=
  { id := "rh-high"
    title := "Kelembapan Terlalu Tinggi"
    severity := if 94 < h then Severity.CRIT else Severity.WARN
    ts := safeTs
    suggestion := "Tingkatkan exhaust / fan ON." }

/-- The "rh-low" alert of the second `AlertsRules` variant (lines 334-343). -/
def rhLowAlert (h : ℚ) (safeTs : ℤ) : Alert :=
  { id := "rh-low"
    title := "Kelembapan Terlalu Rendah"
    severity := if h < 65 then Severity.CRIT else Severity.WARN
    ts := safeTs
    suggestion := "Mist ON / tambah air." }

/-- The four independent threshold rules of the second `AlertsRules` variant
(lines 297-343), in push order, before the final sort.  A rule only fires
when its reading is non-null (`x != null && ...`). -/
def thresholdAlerts (temperature humidity : Option ℚ) (safeTs : ℤ) : List Alert :=
  (match temperature with
    | none => []
    | some t => if 28 < t then [tempHighAlert t safeTs] else []) ++
  (match temperature with
    | none => []
    | some t => if t < 22 then [tempLowAlert t safeTs] else []) ++
  (match humidity with
    | none => []
    | some h => if 90 < h then [rhHighAlert h safeTs] else []) ++
  (match humidity with
    | none => []
    | some h => if h < 70 then [rhLowAlert h safeTs] else [])

/-- The alert evaluator: the `useMemo` body of the second `AlertsRules`
variant (`AlertsRules.tsx` lines 267-351). -/
def alertsRules (temperature humidity : Option ℚ) (status : Status)
    (ts now : Option ℤ) : List Alert :=
  let safeNow : ℤ := now.getD (ts.getD 0)
  let safeTs : ℤ := ts.getD safeNow
  if gatewayFires status ts now then
    [{ id := "gateway-offline"
       title :=
         if !jsTruthy ts then "Gateway Tidak Mengirim Data"
         else if status == Status.OFFLINE then "Gateway Offline"
         else "Data Terlalu Lama (Stale)"
       severity := Severity.CRIT
       ts := safeTs
       suggestion := "Cek power ESP32, WiFi, dan token ThingsBoard. Restart jika perlu." }]
  else
    jsSort alertLe (thresholdAlerts temperature humidity safeTs)

/-- The "temp-high" alert of the first `AlertsRules` variant (lines 76-85). -/
def tempHighAlertV1 (t : ℚ) (safeTs : ℤ) : Alert :=
  { id := "temp-high"
    title := "Temperature High"
    severity := if 30 < t then Severity.CRIT else Severity.WARN
    ts := safeTs
    suggestion := "Fan ON / check ventilation." }

/-- The "temp-low" alert of the first `AlertsRules` variant (lines 88-97). -/
def tempLowAlertV1 (t : ℚ) (safeTs : ℤ) : Alert :=
  { id := "temp-low"
    title := "Temperature Low"
    severity := if t < 20 then Severity.CRIT else Severity.WARN
    ts := safeTs
    suggestion := "Reduce airflow / heater if available." }

/-- The "rh-high" alert of the first `AlertsRules` variant (lines 100-109). -/
def rhHighAlertV1 (h : ℚ) (safeTs : ℤ) : Alert :=
  { id := "rh-high"
    title := "Humidity High"
    severity := if 94 < h then Severity.CRIT else Severity.WARN
    ts := safeTs
    suggestion := "Increase exhaust / fan ON." }

/-- The "rh-low" alert of the first `AlertsRules` variant (lines 112-121). -/
def rhLowAlertV1 (h : ℚ) (safeTs : ℤ) : Alert :=
  { id := "rh-low"
    title := "Humidity Low"
    severity := if h < 65 then Severity.CRIT else Severity.WARN
    ts := safeTs
    suggestion := "Mist ON / add water." }

/-- The four threshold rules of the first `AlertsRules` variant
(lines 75-121); same thresholds, English title/suggestion strings. -/
def thresholdAlertsV1 (temperature humidity : Option ℚ) (safeTs : ℤ) : List Alert :=
  (match temperature with
    | none => []
    | some t => if 28 < t then [tempHighAlertV1 t safeTs] else []) ++
  (match temperature with
    | none => []
    | some t => if t < 22 then [tempLowAlertV1 t safeTs] else []) ++
  (match humidity with
    | none => []
    | some h => if 90 < h then [rhHighAlertV1 h safeTs] else []) ++
  (match humidity with
    | none => []
    | some h => if h < 70 then [rhLowAlertV1 h safeTs] else [])

/-- The alert evaluator of the first (earlier) `AlertsRules` variant
(`AlertsRules.tsx` lines 53-124): no staleness arm, no sort. -/
def alertsRulesV1 (temperature humidity : Option ℚ) (status : Status)
    (ts now : Option ℤ) : List Alert :=
  let safeNow : ℤ := now.getD (ts.getD 0)
  let safeTs : ℤ := ts.getD safeNow
  if !jsTruthy ts || status == Status.OFFLINE then
    [{ id := "gateway-offline"
       title := "Gateway Offline / Data Stale"
       severity := Severity.CRIT
       ts := safeTs
       suggestion := "Check ESP32 power / WiFi / ThingsBoard token." }]
  else
    thresholdAlertsV1 temperature humidity safeTs

/-! ### Generic facts about `jsSort` -/

theorem mem_jsSortInsert {le : α → α → Bool} {x z : α} {l : List α} :
    z ∈ jsSortInsert le x l ↔ z = x ∨ z ∈ l := by
  induction l with
  | nil => simp [jsSortInsert]
  | cons y ys ih =>
    cases h : le y x
    · simp [jsSortInsert, h]
    · simp only [jsSortInsert, h, if_true, List.mem_cons, ih]
      tauto

theorem pairwise_jsSortInsert {le : α → α → Bool}
    (htrans : ∀ a b c, le a b = true → le b c = true → le a c = true)
    (htotal : ∀ a b, le a b || le b a)
    (x : α) {l : List α} (hl : l.Pairwise (le · ·)) :
    (jsSortInsert le x l).Pairwise (le · ·) := by
  induction l with
  | nil => simp [jsSortInsert]
  | cons y ys ih =>
    rcases List.pairwise_cons.mp hl with ⟨hy, hys⟩
    by_cases h : le y x
    · simp only [jsSortInsert, h, if_true]
      refine List.pairwise_cons.mpr ⟨?_, ih hys⟩
      intro z hz
      rcases mem_jsSortInsert.mp hz with rfl | hz
      · exact h
      · exact hy z hz
    · simp only [jsSortInsert, h, if_false]
      have hxy : le x y := by
        rcases Bool.or_eq_true_iff.mp (htotal y x) with h1 | h1
        · exact absurd h1 h
        · exact h1
      refine List.pairwise_cons.mpr ⟨?_, hl⟩
      intro z hz
      rcases List.mem_cons.mp hz with rfl | hz
      · exact hxy
      · exact htrans x y z hxy (hy z hz)

theorem jsSortInsert_perm (le : α → α → Bool) (x : α) (l : List α) :
    (jsSortInsert le x l).Perm (x :: l) := by
  induction l with
  | nil => simp [jsSortInsert]
  | cons y ys ih =>
    cases h : le y x
    · simp [jsSortInsert, h]
    · simp only [jsSortInsert, h, if_true]
      exact (ih.cons y).trans (List.Perm.swap x y ys)

theorem jsSort_perm (le : α → α → Bool) (l : List α) : (jsSort le l).Perm l := by
  suffices h : ∀ acc : List α,
      (l.foldl (fun acc x => jsSortInsert le x acc) acc).Perm (acc ++ l) by
    simpa using h []
  induction l with
  | nil => simp
  | cons y ys ih =>
    intro acc
    have h1 : ((y :: ys).foldl (fun acc x => jsSortInsert le x acc) acc)
        = ys.foldl (fun acc x => jsSortInsert le x acc) (jsSortInsert le y acc) := rfl
    rw [h1]
    refine (ih _).trans ?_
    refine (((jsSortInsert_perm le y acc).append_right ys).trans ?_)
    exact List.perm_middle.symm

theorem mem_jsSort {le : α → α → Bool} {z : α} {l : List α} :
    z ∈ jsSort le l ↔ z ∈ l :=
  (jsSort_perm le l).mem_iff

theorem pairwise_jsSort {le : α → α → Bool}
    (htrans : ∀ a b c, le a b = true → le b c = true → le a c = true)
    (htotal : ∀ a b, le a b || le b a) (l : List α) :
    (jsSort le l).Pairwise (le · ·) := by
  suffices h : ∀ acc : List α, acc.Pairwise (le · ·) →
      (l.foldl (fun acc x => jsSortInsert le x acc) acc).Pairwise (le · ·) by
    exact h [] (List.Pairwise.nil)
  induction l with
  | nil => exact fun acc h => h
  | cons y ys ih =>
    intro acc hacc
    exact ih (jsSortInsert le y acc) (pairwise_jsSortInsert htrans htotal y hacc)

theorem alertLe_trans : ∀ a b c : Alert,
    alertLe a b = true → alertLe b c = true → alertLe a c = true := by
  intro a b c hab hbc
  simp only [alertLe, Bool.or_eq_true, Bool.and_eq_true, decide_eq_true_eq] at *
  omega

theorem alertLe_total : ∀ a b : Alert, alertLe a b || alertLe b a := by
  intro a b
  simp only [alertLe, Bool.or_eq_true, Bool.and_eq_true, decide_eq_true_eq]
  omega

theorem mem_ite_singleton {c : Prop} [Decidable c] {x a : α} :
    (a ∈ if c then [x] else []) ↔ c ∧ a = x := by
  by_cases h : c <;> simp [h]

theorem mem_thresholdAlerts {temperature humidity : Option ℚ} {sts : ℤ} {a : Alert} :
    a ∈ thresholdAlerts temperature humidity sts ↔
      (∃ t, temperature = some t ∧ 28 < t ∧ a = tempHighAlert t sts) ∨
      (∃ t, temperature = some t ∧ t < 22 ∧ a = tempLowAlert t sts) ∨
      (∃ h, humidity = some h ∧ 90 < h ∧ a = rhHighAlert h sts) ∨
      (∃ h, humidity = some h ∧ h < 70 ∧ a = rhLowAlert h sts) := by
  rcases temperature with _ | t <;> rcases humidity with _ | hm <;>
    simp [thresholdAlerts, List.mem_append, mem_ite_singleton, and_assoc]

/-- Claim C1: with non-null temperature `t` and humidity `h`, when the
connectivity rule does not fire, the evaluator emits "temp-high" iff
`t > 28` (CRIT iff `t > 30`, else WARN), "temp-low" iff `t < 22` (CRIT iff
`t < 20`), "rh-high" iff `h > 90` (CRIT iff `h > 94`), and "rh-low" iff
`h < 70` (CRIT iff `h < 65`). -/
theorem threshold_rules (t h : ℚ) (status : Status) (ts now : Option ℤ)
    (hg : gatewayFires status ts now = false) :
    ((∃ a ∈ alertsRules (some t) (some h) status ts now, a.id = "temp-high") ↔ 28 < t)
    ∧ (∀ a ∈ alertsRules (some t) (some h) status ts now, a.id = "temp-high" →
        a.severity = if 30 < t then Severity.CRIT else Severity.WARN)
    ∧ ((∃ a ∈ alertsRules (some t) (some h) status ts now, a.id = "temp-low") ↔ t < 22)
    ∧ (∀ a ∈ alertsRules (some t) (some h) status ts now, a.id = "temp-low" →
        a.severity = if t < 20 then Severity.CRIT else Severity.WARN)
    ∧ ((∃ a ∈ alertsRules (some t) (some h) status ts now, a.id = "rh-high") ↔ 90 < h)
    ∧ (∀ a ∈ alertsRules (some t) (some h) status ts now, a.id = "rh-high" →
        a.severity = if 94 < h then Severity.CRIT else Severity.WARN)
    ∧ ((∃ a ∈ alertsRules (some t) (some h) status ts now, a.id = "rh-low") ↔ h < 70)
    ∧ (∀ a ∈ alertsRules (some t) (some h) status ts now, a.id = "rh-low" →
        a.severity = if h < 65 then Severity.CRIT else Severity.WARN) := by
  have hmem : ∀ a : Alert, a ∈ alertsRules (some t) (some h) status ts now ↔
      (28 < t ∧ a = tempHighAlert t (ts.getD (now.getD (ts.getD 0)))) ∨
      (t < 22 ∧ a = tempLowAlert t (ts.getD (now.getD (ts.getD 0)))) ∨
      (90 < h ∧ a = rhHighAlert h (ts.getD (now.getD (ts.getD 0)))) ∨
      (h < 70 ∧ a = rhLowAlert h (ts.getD (now.getD (ts.getD 0)))) := by
    intro a
    simp [alertsRules, hg, mem_jsSort, mem_thresholdAlerts]
  refine ⟨?_, ?_, ?_, ?_, ?_, ?_, ?_, ?_⟩
  · constructor
    · rintro ⟨a, ha, hid⟩
      rcases (hmem a).mp ha with ⟨h1, rfl⟩ | ⟨h1, rfl⟩ | ⟨h1, rfl⟩ | ⟨h1, rfl⟩ <;>
        first
          | exact h1
          | simp [tempHighAlert, tempLowAlert, rhHighAlert, rhLowAlert] at hid
    · intro h1
      exact ⟨_, (hmem _).mpr (Or.inl ⟨h1, rfl⟩), rfl⟩
  · rintro a ha hid
    rcases (hmem a).mp ha with ⟨h1, rfl⟩ | ⟨h1, rfl⟩ | ⟨h1, rfl⟩ | ⟨h1, rfl⟩ <;>
      first
        | rfl
        | simp [tempHighAlert, tempLowAlert, rhHighAlert, rhLowAlert] at hid
  · constructor
    · rintro ⟨a, ha, hid⟩
      rcases (hmem a).mp ha with ⟨h1, rfl⟩ | ⟨h1, rfl⟩ | ⟨h1, rfl⟩ | ⟨h1, rfl⟩ <;>
        first
          | exact h1
          | simp [tempHighAlert, tempLowAlert, rhHighAlert, rhLowAlert] at hid
    · intro h1
      exact ⟨_, (hmem _).mpr (Or.inr (Or.inl ⟨h1, rfl⟩)), rfl⟩
  · rintro a ha hid
    rcases (hmem a).mp ha with ⟨h1, rfl⟩ | ⟨h1, rfl⟩ | ⟨h1, rfl⟩ | ⟨h1, rfl⟩ <;>
      first
        | rfl
        | simp [tempHighAlert, tempLowAlert, rhHighAlert, rhLowAlert] at hid
  · constructor
    · rintro ⟨a, ha, hid⟩
      rcases (hmem a).mp ha with ⟨h1, rfl⟩ | ⟨h1, rfl⟩ | ⟨h1, rfl⟩ | ⟨h1, rfl⟩ <;>
        first
          | exact h1
          | simp [tempHighAlert, tempLowAlert, rhHighAlert, rhLowAlert] at hid
    · intro h1
      exact ⟨_, (hmem _).mpr (Or.inr (Or.inr (Or.inl ⟨h1, rfl⟩))), rfl⟩
  · rintro a ha hid
    rcases (hmem a).mp ha with ⟨h1, rfl⟩ | ⟨h1, rfl⟩ | ⟨h1, rfl⟩ | ⟨h1, rfl⟩ <;>
      first
        | rfl
        | simp [tempHighAlert, tempLowAlert, rhHighAlert, rhLowAlert] at hid
  · constructor
    · rintro ⟨a, ha, hid⟩
      rcases (hmem a).mp ha with ⟨h1, rfl⟩ | ⟨h1, rfl⟩ | ⟨h1, rfl⟩ | ⟨h1, rfl⟩ <;>
        first
          | exact h1
          | simp [tempHighAlert, tempLowAlert, rhHighAlert, rhLowAlert] at hid
    · intro h1
      exact ⟨_, (hmem _).mpr (Or.inr (Or.inr (Or.inr ⟨h1, rfl⟩))), rfl⟩
  · rintro a ha hid
    rcases (hmem a).mp ha with ⟨h1, rfl⟩ | ⟨h1, rfl⟩ | ⟨h1, rfl⟩ | ⟨h1, rfl⟩ <;>
      first
        | rfl
        | simp [tempHighAlert, tempLowAlert, rhHighAlert, rhLowAlert] at hid

/-- Claim C1 witness at a concrete input. -/
theorem threshold_rules_witness :
    ∃ a ∈ alertsRules (some (31 : ℚ)) (some (95 : ℚ)) Status.ONLINE (some 1) (some 1),
      a.id = "temp-high" :=
  ((threshold_rules 31 95 Status.ONLINE (some 1) (some 1) (by decide)).1).mpr (by decide)

/-- Claim C2 (amended): if `ts` is absent, or `status` is OFFLINE, or `ts`
and `now` are both present and nonzero with `now - ts > 120000` ms, the
evaluator returns exactly one alert: the CRIT gateway-offline/stale alert. -/
theorem gateway_exclusive (temperature humidity : Option ℚ) (status : Status)
    (ts now : Option ℤ)
    (hcond : ts = none ∨ status = Status.OFFLINE ∨
      ∃ t n, ts = some t ∧ now = some n ∧ t ≠ 0 ∧ n ≠ 0 ∧ 120000 < n - t) :
    ∃ a, alertsRules temperature humidity status ts now = [a] ∧
      a.id = "gateway-offline" ∧ a.severity = Severity.CRIT := by
  have hgw : gatewayFires status ts now = true := by
    rcases hcond with rfl | hoff | ⟨t, n, rfl, rfl, ht, hn, hlt⟩
    · simp [gatewayFires, jsTruthy]
    · simp [gatewayFires, hoff]
    · have h1 : (t != 0) = true := by simpa using ht
      have h2 : (n != 0) = true := by simpa using hn
      have hstale : staleFlag (some t) (some n) = true := by
        simp only [staleFlag, jsTruthy, h1, h2, Bool.and_self, if_true,
          Option.getD_some, decide_eq_true_eq]
        omega
      simp [gatewayFires, hstale]
  simp only [alertsRules, hgw, if_true]
  exact ⟨_, rfl, rfl, rfl⟩

/-- Claim C2 witness at a concrete input (no timestamp at all). -/
theorem gateway_exclusive_witness :
    ∃ a, alertsRules none none Status.UNKNOWN none none = [a] ∧
      a.id = "gateway-offline" ∧ a.severity = Severity.CRIT :=
  gateway_exclusive none none Status.UNKNOWN none none (Or.inl rfl)

/-- Claim C2 counterexample to the original statement: at
`ts = -200000`, `now = 0` (JavaScript treats `now = 0` as falsy in
`ts && now`), the age `now - ts = 200000` exceeds 120000 ms, yet the
evaluator returns no alert at all instead of exactly one gateway alert. -/
theorem gateway_exclusive_counterexample :
    ((120000 : ℤ) < 0 - (-200000)) ∧
    alertsRules none none Status.ONLINE (some (-200000)) (some 0) = [] := by
  constructor
  · decide
  · rfl

/-- Claim C3: the alert list returned by the evaluator is sorted by severity
(CRIT before WARN before INFO, i.e. ascending `severityRank`), ties broken
by descending timestamp. -/
theorem alerts_sorted (temperature humidity : Option ℚ) (status : Status)
    (ts now : Option ℤ) :
    (alertsRules temperature humidity status ts now).Pairwise
      (fun a b => severityRank a.severity < severityRank b.severity ∨
        (severityRank a.severity = severityRank b.severity ∧ b.ts ≤ a.ts)) := by
  by_cases hgw : gatewayFires status ts now
  · simp [alertsRules, hgw]
  · simp only [alertsRules, hgw, Bool.false_eq_true, if_false]
    refine List.Pairwise.imp ?_ (pairwise_jsSort alertLe_trans alertLe_total _)
    intro a b hab
    simpa only [alertLe, Bool.or_eq_true, Bool.and_eq_true, decide_eq_true_eq]
      using hab

/-- Helper for C9: the `if c then CRIT else WARN` severities are never INFO. -/
theorem severity_ite (c : Prop) [Decidable c] :
    (if c then Severity.CRIT else Severity.WARN) = Severity.CRIT ∨
      (if c then Severity.CRIT else Severity.WARN) = Severity.WARN := by
  by_cases h : c <;> simp [h]

/-- Helper for C9, second evaluator variant. -/
theorem severity_of_mem_alertsRules {a : Alert} {temperature humidity : Option ℚ}
    {status : Status} {ts now : Option ℤ}
    (h : a ∈ alertsRules temperature humidity status ts now) :
    a.severity = Severity.CRIT ∨ a.severity = Severity.WARN := by
  by_cases hgw : gatewayFires status ts now
  · simp [alertsRules, hgw] at h
    rw [h]
    left
    rfl
  · simp only [alertsRules, hgw, Bool.false_eq_true, if_false, mem_jsSort] at h
    rcases mem_thresholdAlerts.mp h with
        ⟨t, _, _, rfl⟩ | ⟨t, _, _, rfl⟩ | ⟨hm, _, _, rfl⟩ | ⟨hm, _, _, rfl⟩ <;>
      exact severity_ite _

/-- Helper for C9, first evaluator variant. -/
theorem severity_of_mem_alertsRulesV1 {a : Alert} {temperature humidity : Option ℚ}
    {status : Status} {ts now : Option ℤ}
    (h : a ∈ alertsRulesV1 temperature humidity status ts now) :
    a.severity = Severity.CRIT ∨ a.severity = Severity.WARN := by
  by_cases hgw : (!jsTruthy ts || status == Status.OFFLINE) = true
  · simp [alertsRulesV1, hgw] at h
    rw [h]
    left
    rfl
  · simp only [alertsRulesV1, hgw, Bool.false_eq_true, if_false] at h
    have hc : a ∈ thresholdAlertsV1 temperature humidity (ts.getD (now.getD (ts.getD 0))) ↔
        (∃ t, temperature = some t ∧ 28 < t ∧ a = tempHighAlertV1 t (ts.getD (now.getD (ts.getD 0)))) ∨
        (∃ t, temperature = some t ∧ t < 22 ∧ a = tempLowAlertV1 t (ts.getD (now.getD (ts.getD 0)))) ∨
        (∃ h, humidity = some h ∧ 90 < h ∧ a = rhHighAlertV1 h (ts.getD (now.getD (ts.getD 0)))) ∨
        (∃ h, humidity = some h ∧ h < 70 ∧ a = rhLowAlertV1 h (ts.getD (now.getD (ts.getD 0)))) := by
      rcases temperature with _ | t <;> rcases humidity with _ | hm <;>
        simp [thresholdAlertsV1, List.mem_append, mem_ite_singleton, and_assoc]
    rcases hc.mp h with
        ⟨t, _, _, rfl⟩ | ⟨t, _, _, rfl⟩ | ⟨hm, _, _, rfl⟩ | ⟨hm, _, _, rfl⟩ <;>
      exact severity_ite _

/-- Claim C9: every alert produced by either variant of the evaluator has
severity CRIT or WARN; no input yields an INFO alert. -/
theorem no_info_alerts (temperature humidity : Option ℚ) (status : Status)
    (ts now : Option ℤ) (a : Alert)
    (ha : a ∈ alertsRules temperature humidity status ts now ∨
      a ∈ alertsRulesV1 temperature humidity status ts now) :
    a.severity = Severity.CRIT ∨ a.severity = Severity.WARN := by
  rcases ha with h | h
  · exact severity_of_mem_alertsRules h
  · exact severity_of_mem_alertsRulesV1 h

/-- A concrete alert for the C9 witness: the gateway alert the second
variant emits when no timestamp exists. -/
def gatewayDemoAlert : Alert :=
  { id := "gateway-offline"
    title := "Gateway Tidak Mengirim Data"
    severity := Severity.CRIT
    ts := 0
    suggestion := "Cek power ESP32, WiFi, dan token ThingsBoard. Restart jika perlu." }

/-- Claim C9 witness at a concrete input. -/
theorem no_info_alerts_witness :
    gatewayDemoAlert.severity = Severity.CRIT ∨
      gatewayDemoAlert.severity = Severity.WARN :=
  no_info_alerts none none Status.UNKNOWN none none gatewayDemoAlert
    (Or.inl (by decide))

/-! ### Trend statistics engine (`src/app/TrendInsights.tsx`) -/

/-- A history sample as received by `TrendInsights` (`type RawPoint`):
optional metric fields are `none` when missing or null. -/
structure RawPoint where
  ts : ℤ
  temperature : Option ℚ
  humidity : Option ℚ
deriving DecidableEq

/-- The trend labels of `TrendInsights.tsx` ("naik" = rising,
"turun" = falling, "stabil" = stable). -/
inductive Trend
  | naik
  | turun
  | stabil
deriving DecidableEq

/-- The `Stats` record computed by `TrendInsights.tsx` (lines 11-22). -/
structure Stats where
  minT : Option ℚ
  maxT : Option ℚ
  avgT : Option ℚ
  minH : Option ℚ
  maxH : Option ℚ
  avgH : Option ℚ
  idealPct : Option ℚ
  trendT : Option Trend
  trendH : Option Trend
  latestTs : Option ℤ
deriving DecidableEq

/-- Model of `mean` from `TrendInsights.tsx` (lines 24-26): sum divided by length.
The source only ever applies it to non-empty lists (guarded by `.length`
checks), so the `0 / 0 = 0` junk value of the empty case is never used. -/
def mean (l : List ℚ) : ℚ := l.sum / l.length

/-- Model of `Math.min(...xs)` over a non-empty list (`null` for an empty one,
matching the `xs.length ? ... : null` guards in the source). -/
def listMin : List ℚ → Option ℚ
  | [] => none
  | x :: xs => some (xs.foldl min x)

/-- Model of `Math.max(...xs)` over a non-empty list (`null` for an empty one). -/
def listMax : List ℚ → Option ℚ
  | [] => none
  | x :: xs => some (xs.foldl max x)

/-- Model of `Array.prototype.slice(start, stop)` with JavaScript index semantics:
negative indices count from the end of the array and are clamped. -/
def jsSlice (l : List α) (start stop : ℤ) : List α :=
  let len : ℤ := l.length
  let s : ℤ := if start < 0 then max (len + start) 0 else min start len
  let e : ℤ := if stop < 0 then max (len + stop) 0 else min stop len
  (l.drop s.toNat).take (e - s).toNat

/-- The `trend` helper of `TrendInsights.tsx` (lines 98-103): null if either
window has no valid samples, "stabil" when the mean difference is below 0.2
in absolute value, otherwise "naik" when positive, "turun" when negative.
(The float literal `0.2` is idealised as the rational `1/5`.) -/
def trendOf (a b : List ℚ) : Option Trend :=
  if a = [] ∨ b = [] then none
  else
    let d := mean a - mean b
    if |d| < 1/5 then some Trend.stabil
    else if 0 < d then some Trend.naik
    else some Trend.turun

/-- One iteration of the ideal/valid counting loop of `TrendInsights.tsx`
(lines 77-84): samples with a null metric are skipped (`continue`),
otherwise `validCount` increments and `idealCount` increments when both
readings are in the ideal band. -/
def idealStep (acc : ℕ × ℕ) (p : RawPoint) : ℕ × ℕ :=
  match p.temperature, p.humidity with
  | some t, some h =>
    (if 22 ≤ t ∧ t ≤ 28 ∧ 70 ≤ h ∧ h ≤ 90 then acc.1 + 1 else acc.1,
     acc.2 + 1)
  | _, _ => acc

/-- The ideal/valid counting loop of `TrendInsights.tsx` (lines 75-84),
returning `(idealCount, validCount)`. -/
def idealLoop (points : List RawPoint) : ℕ × ℕ :=
  points.foldl idealStep (0, 0)

/-- The comparison-window size of `TrendInsights.tsx` (line 89):
`Math.max(4, Math.floor(n * 0.1))`.  For every realistic length
(`limit=2000` upstream) `Math.floor(n * 0.1)` in doubles equals `n / 10`. -/
def statsWindow (points : List RawPoint) : ℕ :=
  max 4 (points.length / 10)

/-- The statistics block of `TrendInsights.tsx` (lines 53-115): per-metric
min/max/mean over non-null values, ideal percentage, windowed trend per
metric, and the timestamp of the last sample. -/
def statsOf (points : List RawPoint) : Stats :=
  if points = [] then
    ⟨none, none, none, none, none, none, none, none, none, none⟩
  else
    let temps := (points.map (·.temperature)).filterMap id
    let hums := (points.map (·.humidity)).filterMap id
    let idealCount := (idealLoop points).1
    let validCount := (idealLoop points).2
    let n : ℤ := points.length
    let window : ℤ := statsWindow points
    let last := jsSlice points (n - window) n
    let prev := jsSlice points (n - 2 * window) (n - window)
    let lastT := (last.map (·.temperature)).filterMap id
    let prevT := (prev.map (·.temperature)).filterMap id
    let lastH := (last.map (·.humidity)).filterMap id
    let prevH := (prev.map (·.humidity)).filterMap id
    { minT := listMin temps
      maxT := listMax temps
      avgT := if temps = [] then none else some (mean temps)
      minH := listMin hums
      maxH := listMax hums
      avgH := if hums = [] then none else some (mean hums)
      idealPct :=
        if validCount = 0 then none
        else some ((idealCount / validCount : ℚ) * 100)
      trendT := trendOf lastT prevT
      trendH := trendOf lastH prevH
      latestTs := (points.getLast?).map (·.ts) }

/-! ### C6: ideal percentage -/

/-- A sample with both metrics present (the `continue` guard of the loop). -/
def validPred (p : RawPoint) : Bool :=
  p.temperature.isSome && p.humidity.isSome

/-- A sample with both metrics present and in the ideal band. -/
def idealPred (p : RawPoint) : Bool :=
  match p.temperature, p.humidity with
  | some t, some h => decide (22 ≤ t ∧ t ≤ 28 ∧ 70 ≤ h ∧ h ≤ 90)
  | _, _ => false

theorem idealLoop_eq (points : List RawPoint) :
    idealLoop points = (points.countP idealPred, points.countP validPred) := by
  have key : ∀ (l : List RawPoint) (acc : ℕ × ℕ),
      l.foldl idealStep acc = (acc.1 + l.countP idealPred, acc.2 + l.countP validPred) := by
    intro l
    induction l with
    | nil => intro acc; simp
    | cons p ps ih =>
      intro acc
      rw [List.foldl_cons, ih]
      rcases hpt : p.temperature with _ | t <;> rcases hph : p.humidity with _ | hv <;>
        simp only [idealStep, hpt, hph, List.countP_cons, idealPred, validPred,
          Option.isSome_none, Option.isSome_some, Bool.and_true, Bool.true_and,
          Bool.and_false, Bool.false_and, decide_eq_true_eq, Bool.false_eq_true,
          if_false, Prod.mk.injEq] <;>
        (try split_ifs) <;> constructor <;> omega
  have h0 := key points (0, 0)
  simpa [idealLoop] using h0

/-- The ideal percentage as the spec states it: 100 times the count of
samples with both metrics present and in the ideal band, divided by the
count of samples with both metrics present; null when that count is zero. -/
def idealPctSpec (points : List RawPoint) : Option ℚ :=
  if points.countP validPred = 0 then none
  else some (100 * (points.countP idealPred : ℚ) / (points.countP validPred : ℚ))

/-- Nine ideal samples and one non-ideal sample, every metric present. -/
def exampleIdeal10 : List RawPoint :=
  [⟨1, some 25, some 80⟩, ⟨2, some 25, some 80⟩, ⟨3, some 25, some 80⟩,
   ⟨4, some 25, some 80⟩, ⟨5, some 25, some 80⟩, ⟨6, some 25, some 80⟩,
   ⟨7, some 25, some 80⟩, ⟨8, some 25, some 80⟩, ⟨9, some 25, some 80⟩,
   ⟨10, some 30, some 80⟩]

/-- Claim C6: the ideal percentage equals 100 × (samples with both metrics
present, temperature in [22,28] and humidity in [70,90]) / (samples with
both metrics present), null when the denominator is zero; for 9 ideal and
1 non-ideal fully-present samples the result is 90. -/
theorem ideal_percentage (points : List RawPoint) :
    (statsOf points).idealPct = idealPctSpec points ∧
    (statsOf exampleIdeal10).idealPct = some 90 := by
  constructor
  · by_cases hp : points = []
    · subst hp
      simp [statsOf, idealPctSpec]
    · simp only [statsOf, hp, Bool.false_eq_true, if_false, idealLoop_eq,
        idealPctSpec]
      split_ifs with h
      · rfl
      · exact congrArg some (by ring)
  · with_unfolding_all rfl

/-! ### C4: out-of-range raw values are not filtered -/

theorem le_foldl_max (l : List ℚ) (x : ℚ) : x ≤ l.foldl max x := by
  induction l generalizing x with
  | nil => exact le_refl x
  | cons y ys ih => exact le_trans (le_max_left x y) (ih (max x y))

theorem mem_le_foldl_max {v : ℚ} {l : List ℚ} (x : ℚ) (h : v ∈ l) :
    v ≤ l.foldl max x := by
  induction l generalizing x with
  | nil => cases h
  | cons y ys ih =>
    rcases List.mem_cons.mp h with rfl | h
    · exact le_trans (le_max_right x v) (le_foldl_max ys (max x v))
    · exact ih (max x y) h

/-- A history with an out-of-range humidity glitch (150). -/
def exGlitch : List RawPoint :=
  [⟨1, some 25, some 80⟩, ⟨2, some 25, some 150⟩]

/-- The same history with the glitch reading absent instead. -/
def exGlitchAbsent : List RawPoint :=
  [⟨1, some 25, some 80⟩, ⟨2, some 25, none⟩]

/-- Claim C4 counterexample: a humidity reading of 150 (outside [0,100]) is
*not* treated as absent: it becomes the humidity maximum and enters the
ideal-percentage denominator, unlike the same history with the reading
absent. -/
theorem range_filter_counterexample :
    (statsOf exGlitch).maxH = some 150 ∧
    (statsOf exGlitchAbsent).maxH = some 80 ∧
    (statsOf exGlitch).idealPct = some 50 ∧
    (statsOf exGlitchAbsent).idealPct = some 100 := by
  exact ⟨by with_unfolding_all rfl, by with_unfolding_all rfl,
    by with_unfolding_all rfl, by with_unfolding_all rfl⟩

/-- Claim C4 (amended): no range filter exists anywhere in the pipeline —
every non-null raw humidity value, however far outside [0,100], enters the
statistics; in particular it is a lower bound of the reported maximum. -/
theorem raw_values_unfiltered (points : List RawPoint) (p : RawPoint) (v : ℚ)
    (hp : p ∈ points) (hv : p.humidity = some v) :
    ∃ m, (statsOf points).maxH = some m ∧ v ≤ m := by
  have hne : points ≠ [] := by
    rintro rfl
    cases hp
  have hvmem : v ∈ (points.map (·.humidity)).filterMap id := by
    simp only [List.mem_filterMap, List.mem_map, id]
    exact ⟨some v, ⟨p, hp, hv⟩, rfl⟩
  rcases hl : (points.map (·.humidity)).filterMap id with _ | ⟨x, xs⟩
  · rw [hl] at hvmem
    cases hvmem
  · refine ⟨xs.foldl max x, ?_, ?_⟩
    · simp only [statsOf, hne, Bool.false_eq_true, if_false]
      rw [hl]
      rfl
    · rw [hl] at hvmem
      rcases List.mem_cons.mp hvmem with rfl | hvs
      · exact le_foldl_max xs v
      · exact mem_le_foldl_max x hvs

/-- Claim C4 amended-theorem witness at a concrete input. -/
theorem raw_values_unfiltered_witness :
    ∃ m, (statsOf exGlitch).maxH = some m ∧ (150 : ℚ) ≤ m :=
  raw_values_unfiltered exGlitch ⟨2, some 25, some 150⟩ 150 (by decide) rfl

/-! ### C7: trend windows -/

/-- The per-metric trend as the spec states it: compare the mean of the
valid values among the last `w` samples against the mean of the valid
values among the `w` samples immediately before them; null when either
window has no valid samples, stable when the absolute difference is below
the epsilon 0.2, rising when the recent mean exceeds the prior mean by at
least epsilon, falling otherwise. -/
def trendSpecOf (vals : List (Option ℚ)) (w : ℕ) : Option Trend :=
  let n := vals.length
  let recent := (vals.drop (n - w)).filterMap id
  let prior := ((vals.take (n - w)).drop (n - 2 * w)).filterMap id
  if recent = [] ∨ prior = [] then none
  else if |mean recent - mean prior| < 1/5 then some Trend.stabil
  else if 1/5 ≤ mean recent - mean prior then some Trend.naik
  else some Trend.turun

theorem trendOf_eq_spec_label (a b : List ℚ) :
    trendOf a b =
      (if a = [] ∨ b = [] then none
       else if |mean a - mean b| < 1/5 then some Trend.stabil
       else if 1/5 ≤ mean a - mean b then some Trend.naik
       else some Trend.turun) := by
  by_cases he : a = [] ∨ b = []
  · simp [trendOf, he]
  · simp only [trendOf, he, if_false]
    rcases lt_or_le |mean a - mean b| (1/5 : ℚ) with habs | habs
    · rw [if_pos habs, if_pos habs]
    · rw [if_neg (not_lt.mpr habs), if_neg (not_lt.mpr habs)]
      rcases le_or_lt (1/5 : ℚ) (mean a - mean b) with hd | hd
      · rw [if_pos (by linarith), if_pos hd]
      · have hneg : mean a - mean b ≤ -(1/5) := by
          rcases abs_cases (mean a - mean b) with ⟨h1, _⟩ | ⟨h1, _⟩
          · linarith
          · linarith
        rw [if_neg (by linarith), if_neg (by linarith)]

theorem jsSlice_eq_drop_take (l : List α) (a b : ℤ) (h0 : 0 ≤ a) (hab : a ≤ b)
    (hb : b ≤ l.length) :
    jsSlice l a b = (l.drop a.toNat).take (b - a).toNat := by
  simp only [jsSlice]
  rw [if_neg (by omega), if_neg (by omega), min_eq_left (le_trans hab hb),
    min_eq_left hb]

theorem trend_window_eq (points : List RawPoint) (f : RawPoint → Option ℚ)
    (hw : 2 * statsWindow points ≤ points.length) :
    trendOf
      (((jsSlice points ((points.length : ℤ) - (statsWindow points : ℤ))
          (points.length : ℤ)).map f).filterMap id)
      (((jsSlice points ((points.length : ℤ) - 2 * (statsWindow points : ℤ))
          ((points.length : ℤ) - (statsWindow points : ℤ))).map f).filterMap id) =
    trendSpecOf (points.map f) (statsWindow points) := by
  have hlast : jsSlice points ((points.length : ℤ) - (statsWindow points : ℤ))
      (points.length : ℤ) = points.drop (points.length - statsWindow points) := by
    rw [jsSlice_eq_drop_take points _ _ (by omega) (by omega) (by omega)]
    have e1 : ((points.length : ℤ) - (statsWindow points : ℤ)).toNat
        = points.length - statsWindow points := by omega
    have e2 : ((points.length : ℤ) - ((points.length : ℤ) - (statsWindow points : ℤ))).toNat
        = statsWindow points := by omega
    rw [e1, e2]
    apply List.take_of_length_le
    rw [List.length_drop]
    omega
  have hprev : jsSlice points ((points.length : ℤ) - 2 * (statsWindow points : ℤ))
      ((points.length : ℤ) - (statsWindow points : ℤ))
      = (points.drop (points.length - 2 * statsWindow points)).take (statsWindow points) := by
    rw [jsSlice_eq_drop_take points _ _ (by omega) (by omega) (by omega)]
    have e1 : ((points.length : ℤ) - 2 * (statsWindow points : ℤ)).toNat
        = points.length - 2 * statsWindow points := by omega
    have e2 : (((points.length : ℤ) - (statsWindow points : ℤ)) -
        ((points.length : ℤ) - 2 * (statsWindow points : ℤ))).toNat
        = statsWindow points := by omega
    rw [e1, e2]
  rw [hlast, hprev]
  have hrecent : (points.drop (points.length - statsWindow points)).map f
      = (points.map f).drop ((points.map f).length - statsWindow points) := by
    rw [List.map_drop, List.length_map]
  have hpriorL : ((points.drop (points.length - 2 * statsWindow points)).take
        (statsWindow points)).map f
      = ((points.map f).take ((points.map f).length - statsWindow points)).drop
          ((points.map f).length - 2 * statsWindow points) := by
    rw [List.map_take, List.map_drop, List.length_map, List.drop_take]
    congr 1
    omega
  rw [hrecent, hpriorL, trendOf_eq_spec_label]
  simp only [trendSpecOf]

/-- Claim C7 (amended): for histories with at least `2w` samples, where
`w = max(4, floor(N/10))` is the fixed window size, the per-metric trend is
computed exactly as specified: mean of the last `w` samples versus mean of
the `w` samples immediately before them, null when either window has no
valid samples, stable within epsilon 0.2, rising when the difference is at
least epsilon, falling otherwise. -/
theorem trend_windows (points : List RawPoint)
    (hw : 2 * statsWindow points ≤ points.length) :
    (statsOf points).trendT = trendSpecOf (points.map (·.temperature)) (statsWindow points) ∧
    (statsOf points).trendH = trendSpecOf (points.map (·.humidity)) (statsWindow points) := by
  have h4 : 4 ≤ statsWindow points := le_max_left 4 _
  have hne : points ≠ [] := by
    rintro rfl
    simp [statsWindow] at hw
  constructor
  · simp only [statsOf, hne, Bool.false_eq_true, if_false]
    exact trend_window_eq points (·.temperature) hw
  · simp only [statsOf, hne, Bool.false_eq_true, if_false]
    exact trend_window_eq points (·.humidity) hw

/-- Three samples with temperatures 10, 10, 20. -/
def exThree : List RawPoint :=
  [⟨1, some 10, none⟩, ⟨2, some 10, none⟩, ⟨3, some 20, none⟩]

/-- Claim C7 counterexample to the original statement: with 3 samples and
window size `w = 4`, the code's JS `slice` arithmetic compares the windows
`[20]` and `[10, 10]` (sizes 1 and 2) and reports rising, while the claimed
windows — the last `w` samples and the `w` samples immediately before them,
of which there are none — make the trend null. -/
theorem trend_windows_counterexample :
    (statsOf exThree).trendT = some Trend.naik ∧
    trendSpecOf (exThree.map (·.temperature)) (statsWindow exThree) = none := by
  constructor
  · with_unfolding_all rfl
  · with_unfolding_all rfl

/-- Eight samples: four at temperature 25, then four at 26; humidity 80. -/
def exEight : List RawPoint :=
  [⟨1, some 25, some 80⟩, ⟨2, some 25, some 80⟩, ⟨3, some 25, some 80⟩,
   ⟨4, some 25, some 80⟩, ⟨5, some 26, some 80⟩, ⟨6, some 26, some 80⟩,
   ⟨7, some 26, some 80⟩, ⟨8, some 26, some 80⟩]

/-- Claim C7 amended-theorem witness at a concrete input (a rising
temperature trend: recent mean 26 versus prior mean 25). -/
theorem trend_windows_witness :
    2 * statsWindow exEight ≤ exEight.length ∧
    ((statsOf exEight).trendT = trendSpecOf (exEight.map (·.temperature)) (statsWindow exEight) ∧
     (statsOf exEight).trendH = trendSpecOf (exEight.map (·.humidity)) (statsWindow exEight)) :=
  ⟨by decide, trend_windows exEight (by decide)⟩

/-! ### History merge (`src/app/api/tb/history/route.ts`) -/

/-- An upstream time-series point, `type TBPoint = { ts, value: string }`. -/
structure TBPoint where
  ts : ℤ
  value : String
deriving DecidableEq

/-- A merged history sample: `{ ts, temperature: number|null,
humidity: number|null }`. -/
structure MergedPoint where
  ts : ℤ
  temperature : Option ℚ
  humidity : Option ℚ
deriving DecidableEq

/-- Model of `Map.prototype.set`: replace in place when the key exists, append
otherwise (JS `Map` preserves insertion order). -/
def mapSet : List (ℤ × MergedPoint) → ℤ → MergedPoint → List (ℤ × MergedPoint)
  | [], k, v => [(k, v)]
  | (k1, v1) :: rest, k, v =>
    if k1 = k then (k, v) :: rest else (k1, v1) :: mapSet rest k v

/-- Model of `Map.prototype.get`. -/
def mapGet : List (ℤ × MergedPoint) → ℤ → Option MergedPoint
  | [], _ => none
  | (k1, v1) :: rest, k => if k1 = k then some v1 else mapGet rest k

/-- The temperature loop body (route.ts lines 76-83):
`map.set(p.ts, { ts: p.ts, temperature: isFinite(v) ? v : null,
humidity: null })`.  `num` models `Number(p.value)` guarded by
`Number.isFinite` (`none` = non-finite). -/
def tempStep (num : String → Option ℚ) (m : List (ℤ × MergedPoint))
    (p : TBPoint) : List (ℤ × MergedPoint) :=
  mapSet m p.ts ⟨p.ts, num p.value, none⟩

/-- The humidity loop body (route.ts lines 85-90): fetch the previous entry
(or a fresh all-null one), set its humidity, and store it back. -/
def humStep (num : String → Option ℚ) (m : List (ℤ × MergedPoint))
    (p : TBPoint) : List (ℤ × MergedPoint) :=
  let prev := (mapGet m p.ts).getD ⟨p.ts, none, none⟩
  mapSet m p.ts ⟨prev.ts, prev.temperature, num p.value⟩

/-- The merge of the two metric series (route.ts lines 66-92): build the
map from the temperature series, fold in the humidity series, then sort
the values ascending by timestamp. -/
def mergeHistory (num : String → Option ℚ) (suhuList rhList : List TBPoint) :
    List MergedPoint :=
  let m1 := suhuList.foldl (tempStep num) []
  let m2 := rhList.foldl (humStep num) m1
  jsSort (fun a b => decide (a.ts ≤ b.ts)) (m2.map Prod.snd)

theorem mem_mapSet_weak {m : List (ℤ × MergedPoint)} {k : ℤ} {v : MergedPoint}
    {e : ℤ × MergedPoint} (h : e ∈ mapSet m k v) : e = (k, v) ∨ e ∈ m := by
  induction m with
  | nil => simpa [mapSet] using h
  | cons kv rest ih =>
    rcases kv with ⟨k1, v1⟩
    by_cases hk : k1 = k
    · simp only [mapSet, hk, if_true, List.mem_cons] at h
      rcases h with rfl | h
      · exact Or.inl rfl
      · exact Or.inr (List.mem_cons_of_mem _ h)
    · simp only [mapSet, hk, if_false, List.mem_cons] at h
      rcases h with rfl | h
      · exact Or.inr (List.mem_cons_self _ _)
      · rcases ih h with h1 | h1
        · exact Or.inl h1
        · exact Or.inr (List.mem_cons_of_mem _ h1)

theorem mem_keys_mapSet {m : List (ℤ × MergedPoint)} {k t : ℤ} {v : MergedPoint} :
    t ∈ (mapSet m k v).map Prod.fst ↔ t = k ∨ t ∈ m.map Prod.fst := by
  induction m with
  | nil => simp [mapSet]
  | cons kv rest ih =>
    rcases kv with ⟨k1, v1⟩
    by_cases hk : k1 = k
    · subst hk
      simp [mapSet]
    · simp only [mapSet, hk, if_false, List.map_cons, List.mem_cons, ih]
      tauto

theorem mapGet_mem {m : List (ℤ × MergedPoint)} {k : ℤ} {v : MergedPoint}
    (h : mapGet m k = some v) : (k, v) ∈ m := by
  induction m with
  | nil => simp [mapGet] at h
  | cons kv rest ih =>
    rcases kv with ⟨k1, v1⟩
    by_cases hk : k1 = k
    · subst hk
      simp only [mapGet, eq_self_iff_true, if_true, Option.some.injEq] at h
      subst h
      exact List.mem_cons_self _ _
    · simp only [mapGet, hk, if_false] at h
      exact List.mem_cons_of_mem _ (ih h)

/-- Key well-formedness of the merge map: keys are distinct and every
entry's stored `ts` equals its key. -/
def MapOk (m : List (ℤ × MergedPoint)) : Prop :=
  (m.map Prod.fst).Nodup ∧ ∀ e ∈ m, e.2.ts = e.1

theorem nodup_keys_mapSet {m : List (ℤ × MergedPoint)} {k : ℤ} {v : MergedPoint}
    (h : (m.map Prod.fst).Nodup) : ((mapSet m k v).map Prod.fst).Nodup := by
  induction m with
  | nil => simp [mapSet]
  | cons kv rest ih =>
    rcases kv with ⟨k1, v1⟩
    rw [List.map_cons, List.nodup_cons] at h
    obtain ⟨hk1, hrest⟩ := h
    by_cases hk : k1 = k
    · subst hk
      simp only [mapSet, eq_self_iff_true, if_true, List.map_cons, List.nodup_cons]
      exact ⟨hk1, hrest⟩
    · simp only [mapSet, hk, if_false, List.map_cons, List.nodup_cons]
      refine ⟨?_, ih hrest⟩
      intro hmem
      rcases mem_keys_mapSet.mp hmem with rfl | hmem2
      · exact hk rfl
      · exact hk1 hmem2

theorem mapOk_mapSet {m : List (ℤ × MergedPoint)} (hm : MapOk m) {k : ℤ}
    {v : MergedPoint} (hv : v.ts = k) : MapOk (mapSet m k v) := by
  refine ⟨nodup_keys_mapSet hm.1, ?_⟩
  intro e he
  rcases mem_mapSet_weak he with rfl | he2
  · exact hv
  · exact hm.2 e he2

theorem foldl_tempStep_mapOk (num : String → Option ℚ) (l : List TBPoint)
    (m : List (ℤ × MergedPoint)) (h : MapOk m) :
    MapOk (l.foldl (tempStep num) m) := by
  induction l generalizing m with
  | nil => exact h
  | cons p ps ih => exact ih _ (mapOk_mapSet h rfl)

theorem foldl_humStep_mapOk (num : String → Option ℚ) (l : List TBPoint)
    (m : List (ℤ × MergedPoint)) (h : MapOk m) :
    MapOk (l.foldl (humStep num) m) := by
  induction l generalizing m with
  | nil => exact h
  | cons p ps ih =>
    refine ih _ (mapOk_mapSet h ?_)
    rcases hget : mapGet m p.ts with _ | w
    · simp [hget]
    · have hw := h.2 (p.ts, w) (mapGet_mem hget)
      simp [hget]
      exact hw

theorem keys_foldl_tempStep (num : String → Option ℚ) (l : List TBPoint)
    (m : List (ℤ × MergedPoint)) (t : ℤ) :
    t ∈ (l.foldl (tempStep num) m).map Prod.fst ↔
      t ∈ m.map Prod.fst ∨ t ∈ l.map (·.ts) := by
  induction l generalizing m with
  | nil => simp
  | cons p ps ih =>
    rw [List.foldl_cons, ih]
    simp only [tempStep, mem_keys_mapSet, List.map_cons, List.mem_cons]
    tauto

theorem keys_foldl_humStep (num : String → Option ℚ) (l : List TBPoint)
    (m : List (ℤ × MergedPoint)) (t : ℤ) :
    t ∈ (l.foldl (humStep num) m).map Prod.fst ↔
      t ∈ m.map Prod.fst ∨ t ∈ l.map (·.ts) := by
  induction l generalizing m with
  | nil => simp
  | cons p ps ih =>
    rw [List.foldl_cons, ih]
    simp only [humStep, mem_keys_mapSet, List.map_cons, List.mem_cons]
    tauto

theorem hum_none_foldl_tempStep (num : String → Option ℚ) (l : List TBPoint)
    (m : List (ℤ × MergedPoint))
    (h : ∀ e ∈ m, (e : ℤ × MergedPoint).2.humidity = none) :
    ∀ e ∈ l.foldl (tempStep num) m, e.2.humidity = none := by
  induction l generalizing m with
  | nil => exact h
  | cons p ps ih =>
    refine ih _ ?_
    intro e he
    rcases mem_mapSet_weak he with rfl | he2
    · rfl
    · exact h e he2

theorem foldl_humStep_untouched (num : String → Option ℚ) (l : List TBPoint)
    (m : List (ℤ × MergedPoint)) :
    ∀ e ∈ l.foldl (humStep num) m, e.1 ∉ l.map (·.ts) → e ∈ m := by
  induction l generalizing m with
  | nil =>
    intro e he _
    exact he
  | cons p ps ih =>
    intro e he hnot
    rw [List.map_cons, List.mem_cons] at hnot
    push_neg at hnot
    obtain ⟨hn1, hn2⟩ := hnot
    have he2 := ih _ e he hn2
    rcases mem_mapSet_weak he2 with rfl | he3
    · exact absurd rfl hn1
    · exact he3

theorem temp_none_foldl_humStep (num : String → Option ℚ) (l : List TBPoint)
    (m : List (ℤ × MergedPoint)) (sk : List ℤ)
    (h : ∀ e ∈ m, (e : ℤ × MergedPoint).1 ∉ sk → e.2.temperature = none) :
    ∀ e ∈ l.foldl (humStep num) m, e.1 ∉ sk → e.2.temperature = none := by
  induction l generalizing m with
  | nil => exact h
  | cons p ps ih =>
    refine ih _ ?_
    intro e he hkey
    rcases mem_mapSet_weak he with rfl | he2
    · rcases hget : mapGet m p.ts with _ | w
      · simp [hget]
      · have hw := h (p.ts, w) (mapGet_mem hget) hkey
        simp [hget]
        exact hw
    · exact h e he2 hkey

theorem mergedLe_trans : ∀ a b c : MergedPoint, decide (a.ts ≤ b.ts) = true →
    decide (b.ts ≤ c.ts) = true → decide (a.ts ≤ c.ts) = true := by
  intro a b c hab hbc
  simp only [decide_eq_true_eq] at *
  omega

theorem mergedLe_total : ∀ a b : MergedPoint,
    (decide (a.ts ≤ b.ts) || decide (b.ts ≤ a.ts)) = true := by
  intro a b
  simp only [Bool.or_eq_true, decide_eq_true_eq]
  omega

/-- Claim C5: the merge joins the two series on exact timestamp equality
(the merged timestamps are exactly the union of the input timestamps, each
occurring once), a sample present in only one series keeps a null for the
missing metric rather than being dropped, the output is ascending by
timestamp, and the concrete example from the spec evaluates as stated. -/
theorem merge_by_timestamp (num : String → Option ℚ)
    (hp1 : num "20.1" = some (201/10)) (hp2 : num "81.4" = some (407/5))
    (hp3 : num "82.0" = some 82) :
    (∀ suhuList rhList : List TBPoint,
      ((mergeHistory num suhuList rhList).Pairwise (fun a b => a.ts ≤ b.ts)) ∧
      (((mergeHistory num suhuList rhList).map (·.ts)).Nodup) ∧
      (∀ t : ℤ, (∃ s ∈ mergeHistory num suhuList rhList, s.ts = t) ↔
        (t ∈ suhuList.map (·.ts) ∨ t ∈ rhList.map (·.ts))) ∧
      (∀ s ∈ mergeHistory num suhuList rhList,
        (s.ts ∉ rhList.map (·.ts) → s.humidity = none) ∧
        (s.ts ∉ suhuList.map (·.ts) → s.temperature = none))) ∧
    mergeHistory num [⟨100, "20.1"⟩] [⟨100, "81.4"⟩, ⟨200, "82.0"⟩] =
      [⟨100, some (201/10), some (407/5)⟩, ⟨200, none, some 82⟩] := by
  constructor
  · intro suhuList rhList
    have hm1ok : MapOk (suhuList.foldl (tempStep num) []) :=
      foldl_tempStep_mapOk num suhuList [] ⟨List.nodup_nil, by simp⟩
    have hm2ok : MapOk (rhList.foldl (humStep num) (suhuList.foldl (tempStep num) [])) :=
      foldl_humStep_mapOk num rhList _ hm1ok
    have hunfold : mergeHistory num suhuList rhList =
        jsSort (fun a b => decide (a.ts ≤ b.ts))
          ((rhList.foldl (humStep num) (suhuList.foldl (tempStep num) [])).map Prod.snd) :=
      rfl
    have hkeys : ∀ t : ℤ,
        t ∈ (rhList.foldl (humStep num) (suhuList.foldl (tempStep num) [])).map Prod.fst ↔
          t ∈ suhuList.map (·.ts) ∨ t ∈ rhList.map (·.ts) := by
      intro t
      rw [keys_foldl_humStep, keys_foldl_tempStep]
      simp
    rw [hunfold]
    refine ⟨?_, ?_, ?_, ?_⟩
    · refine List.Pairwise.imp ?_ (pairwise_jsSort mergedLe_trans mergedLe_total _)
      intro a b hab
      simpa using hab
    · have hperm := (jsSort_perm (fun a b : MergedPoint => decide (a.ts ≤ b.ts))
        ((rhList.foldl (humStep num) (suhuList.foldl (tempStep num) [])).map Prod.snd)).map
          (fun s : MergedPoint => s.ts)
      rw [hperm.nodup_iff]
      rw [List.map_map]
      have heq : (rhList.foldl (humStep num) (suhuList.foldl (tempStep num) [])).map
            ((fun s : MergedPoint => s.ts) ∘ Prod.snd)
          = (rhList.foldl (humStep num) (suhuList.foldl (tempStep num) [])).map Prod.fst := by
        apply List.map_congr_left
        intro e he
        exact hm2ok.2 e he
      rw [heq]
      exact hm2ok.1
    · intro t
      constructor
      · rintro ⟨s, hs, rfl⟩
        rw [mem_jsSort, List.mem_map] at hs
        obtain ⟨e, he, rfl⟩ := hs
        rw [hm2ok.2 e he, ← hkeys]
        exact List.mem_map_of_mem Prod.fst he
      · intro ht
        rw [← hkeys, List.mem_map] at ht
        obtain ⟨e, he, rfl⟩ := ht
        exact ⟨e.2, mem_jsSort.mpr (List.mem_map_of_mem Prod.snd he), hm2ok.2 e he⟩
    · intro s hs
      rw [mem_jsSort, List.mem_map] at hs
      obtain ⟨e, he, rfl⟩ := hs
      have hts : e.2.ts = e.1 := hm2ok.2 e he
      constructor
      · intro hnot
        rw [hts] at hnot
        have he1 := foldl_humStep_untouched num rhList _ e he hnot
        exact hum_none_foldl_tempStep num suhuList [] (by simp) e he1
      · intro hnot
        rw [hts] at hnot
        refine temp_none_foldl_humStep num rhList _ _ ?_ e he hnot
        intro e2 he2 hkey
        exfalso
        apply hkey
        have hmem : e2.1 ∈ (suhuList.foldl (tempStep num) []).map Prod.fst :=
          List.mem_map_of_mem Prod.fst he2
        rw [keys_foldl_tempStep] at hmem
        simpa using hmem
  · simp only [mergeHistory, List.foldl_cons, List.foldl_nil, tempStep, humStep,
      mapSet, mapGet, hp1, hp2, hp3]
    rfl

/-- A concrete parse function for the C5 witness, standing in for
`Number(...)` on the three strings of the example. -/
def parseDemo : String → Option ℚ := fun s =>
  if s = "20.1" then some (201/10)
  else if s = "81.4" then some (407/5)
  else if s = "82.0" then some 82
  else none

/-- Claim C5 witness: the concrete example evaluated with `parseDemo`. -/
theorem merge_by_timestamp_witness :
    mergeHistory parseDemo [⟨100, "20.1"⟩] [⟨100, "81.4"⟩, ⟨200, "82.0"⟩] =
      [⟨100, some (201/10), some (407/5)⟩, ⟨200, none, some 82⟩] :=
  (merge_by_timestamp parseDemo (by rfl) (by rfl) (by rfl)).2

/-! ### The two GET proxy endpoints (`/api/tb/latest` in `page.tsx`
lines 585-661, `/api/tb/history` in `route.ts`) -/

/-- The four server-held configuration values (`process.env.TB_URL`,
`TB_USERNAME`, `TB_PASSWORD`, `TB_DEVICE_ID`); `none` = unset variable. -/
structure Env where
  url : Option String
  username : Option String
  password : Option String
  deviceId : Option String
deriving DecidableEq

/-- JavaScript truthiness of a `string | undefined`: `undefined` and the
empty string are falsy. -/
def strTruthy : Option String → Bool
  | none => false
  | some s => !s.isEmpty

/-- Outcome of one upstream `fetch`: a 2xx payload or a failure text. -/
inductive FetchResult (α : Type)
  | ok (val : α)
  | fail (text : String)

/-- The upstream ThingsBoard platform, abstracted as an oracle: the login
response and, per token, the two per-key time-series responses
(`(temperature, humidity)` point lists). -/
structure Upstream where
  login : FetchResult String
  latestSeries : String → FetchResult (List TBPoint × List TBPoint)
  historySeries : String → FetchResult (List TBPoint × List TBPoint)

/-- The flat body of a `/api/tb/latest` response. -/
structure LatestBody where
  temperature : Option ℚ
  humidity : Option ℚ
  ts : Option ℤ
deriving DecidableEq

/-- A JSON response body of either endpoint. -/
inductive RouteBody
  | err (error : String) (details : Option String)
  | latest (body : LatestBody)
  | points (pts : List MergedPoint)

/-- An HTTP response: status code and JSON body (`NextResponse.json`
defaults to status 200). -/
structure RouteResponse where
  status : ℕ
  body : RouteBody

/-- The reshaping step of `/api/tb/latest` (`page.tsx` lines 639-654):
values from the head of each series (`arr?.[0]?.value ?? null`), the
timestamp from the temperature series if present, else from the humidity
series (`tempArr?.[0]?.ts ?? humArr?.[0]?.ts ?? null`).  `parse` models
`parseFloat` on the value strings. -/
def latestReshape (parse : String → ℚ) (tempArr humArr : List TBPoint) :
    LatestBody :=
  let tempVal : Option String := tempArr.head?.map (·.value)
  let humVal : Option String := humArr.head?.map (·.value)
  let ts : Option ℤ :=
    match tempArr.head? with
    | some p => some p.ts
    | none =>
      match humArr.head? with
      | some p => some p.ts
      | none => none
  { temperature := tempVal.map parse
    humidity := humVal.map parse
    ts := ts }

/-- The `/api/tb/latest` handler (`page.tsx` lines 585-661): config check,
login, telemetry fetch, reshape.  The second component counts the upstream
requests actually issued. -/
def latestRoute (parse : String → ℚ) (env : Env) (up : Upstream) :
    RouteResponse × ℕ :=
  if !strTruthy env.url || !strTruthy env.username || !strTruthy env.password
      || !strTruthy env.deviceId then
    (⟨500, RouteBody.err "ThingsBoard env vars not set" none⟩, 0)
  else
    match up.login with
    | FetchResult.fail t => (⟨500, RouteBody.err "Failed to login to ThingsBoard" (some t)⟩, 1)
    | FetchResult.ok token =>
      match up.latestSeries token with
      | FetchResult.fail t => (⟨500, RouteBody.err "Failed to fetch telemetry" (some t)⟩, 2)
      | FetchResult.ok (tempArr, humArr) =>
        (⟨200, RouteBody.latest (latestReshape parse tempArr humArr)⟩, 2)

/-- The `/api/tb/history` handler (`route.ts` lines 11-101): config check,
login, telemetry fetch, merge.  `num` models `Number(...)` guarded by
`Number.isFinite`. -/
def historyRoute (num : String → Option ℚ) (env : Env) (up : Upstream) :
    RouteResponse × ℕ :=
  if !strTruthy env.url || !strTruthy env.username || !strTruthy env.password
      || !strTruthy env.deviceId then
    (⟨500, RouteBody.err "ThingsBoard env vars not set" none⟩, 0)
  else
    match up.login with
    | FetchResult.fail t => (⟨500, RouteBody.err "Failed to login to ThingsBoard" (some t)⟩, 1)
    | FetchResult.ok token =>
      match up.historySeries token with
      | FetchResult.fail t => (⟨500, RouteBody.err "Failed to fetch telemetry history" (some t)⟩, 2)
      | FetchResult.ok (suhuList, rhList) =>
        (⟨200, RouteBody.points (mergeHistory num suhuList rhList)⟩, 2)

/-- Claim C8: when any of the four configuration values is absent, both GET
endpoints return HTTP 500 with the error body naming the missing
ThingsBoard configuration, and issue no upstream request at all (the
request counter stays 0). -/
theorem config_error_500 (parse : String → ℚ) (num : String → Option ℚ)
    (env : Env) (up : Upstream)
    (hmiss : env.url = none ∨ env.username = none ∨ env.password = none ∨
      env.deviceId = none) :
    latestRoute parse env up =
      (⟨500, RouteBody.err "ThingsBoard env vars not set" none⟩, 0) ∧
    historyRoute num env up =
      (⟨500, RouteBody.err "ThingsBoard env vars not set" none⟩, 0) := by
  have hcond : (!strTruthy env.url || !strTruthy env.username ||
      !strTruthy env.password || !strTruthy env.deviceId) = true := by
    rcases hmiss with h | h | h | h <;> simp [h, strTruthy]
  constructor
  · simp only [latestRoute, hcond, if_true]
  · simp only [historyRoute, hcond, if_true]

/-- Claim C8 witness: all four variables unset, arbitrary upstream. -/
theorem config_error_500_witness :
    latestRoute (fun _ => 0) ⟨none, none, none, none⟩
        ⟨FetchResult.fail "", fun _ => FetchResult.fail "", fun _ => FetchResult.fail ""⟩ =
      (⟨500, RouteBody.err "ThingsBoard env vars not set" none⟩, 0) ∧
    historyRoute (fun _ => none) ⟨none, none, none, none⟩
        ⟨FetchResult.fail "", fun _ => FetchResult.fail "", fun _ => FetchResult.fail ""⟩ =
      (⟨500, RouteBody.err "ThingsBoard env vars not set" none⟩, 0) :=
  config_error_500 (fun _ => 0) (fun _ => none) ⟨none, none, none, none⟩
    ⟨FetchResult.fail "", fun _ => FetchResult.fail "", fun _ => FetchResult.fail ""⟩
    (Or.inl rfl)

/-- Claim C10: the latest-value endpoint takes its timestamp from the
temperature series when non-empty and from the humidity series otherwise
(null only when both are empty); each metric value is null exactly when its
own series is empty; and a non-null timestamp may belong to a different
metric than a reported value (with both series non-empty the timestamp is
the temperature one while the humidity value comes from a sample with its
own, possibly different, timestamp). -/
theorem latest_ts_source (parse : String → ℚ) (tempArr humArr : List TBPoint) :
    (∀ p, tempArr.head? = some p → (latestReshape parse tempArr humArr).ts = some p.ts)
    ∧ (tempArr = [] → ∀ p, humArr.head? = some p →
        (latestReshape parse tempArr humArr).ts = some p.ts)
    ∧ ((latestReshape parse tempArr humArr).ts = none ↔ (tempArr = [] ∧ humArr = []))
    ∧ ((latestReshape parse tempArr humArr).temperature = none ↔ tempArr = [])
    ∧ ((latestReshape parse tempArr humArr).humidity = none ↔ humArr = [])
    ∧ (∀ pt ph : TBPoint,
        (latestReshape parse [pt] [ph]).ts = some pt.ts ∧
        (latestReshape parse [pt] [ph]).humidity = some (parse ph.value)) := by
  rcases tempArr with _ | ⟨pt0, trest⟩ <;> rcases humArr with _ | ⟨ph0, hrest⟩ <;>
    simp [latestReshape]

/-- Claim C10 witness at a concrete input: both series non-empty, the
returned timestamp is the temperature one. -/
theorem latest_ts_source_witness :
    (latestReshape (fun _ => 0) [⟨100, "a"⟩] [⟨200, "b"⟩]).ts = some 100 :=
  ((latest_ts_source (fun _ => 0) [⟨100, "a"⟩] [⟨200, "b"⟩]).2.2.2.2.2
    ⟨100, "a"⟩ ⟨200, "b"⟩).1

end Dashboard
